import Mathlib

/-!
# Verification of the lookml-generator artifact generation engine

This file gives a shallow embedding, in Lean, of the core artifact
generation code of the lookml-generator repository:

* `generator/views/operational_monitoring_histogram_view.py` — the
  operational-monitoring histogram view builder (`ALLOWED_DIMENSIONS`,
  `_percentile_measure`, `OperationalMonitoringHistogramView.to_lookml`);
* `generator/lookml.py` — the generation pipeline (`_generate_views`,
  `_generate_explores`, `_generate_dashboards`, `_get_views_from_dict`,
  `FILE_HEADER`).

External collaborators (the BigQuery dry-run schema introspector, the
looker-hub fallback artifact store, the `lkml` serializer, the explore and
dashboard variant classes that live outside the embedded sources) are
modelled as explicit parameters: the pipeline code is translated as it
stands, with each collaborator threaded in as a function argument, so that
theorems quantify over every possible collaborator behaviour.

Python dictionaries are modelled as association lists, Python sets of
strings as lists of strings, raised exceptions as `Except` error results,
and the in-place mutation of `self.dimensions` in `to_lookml` as explicit
state passing (the updated view object is returned next to the rendered
result).
-/

/-! ## Errors

`generator/dryrun.py` is not among the embedded sources; from its use in
`generator/lookml.py` we know `DryRunError` carries an error kind
(`Errors.PERMISSION_DENIED` being the one the pipeline inspects) and a
`use_cloud_function` flag.  Any other raised Python exception is modelled
by `PyErr.exn` carrying its message. -/

/-- The `Errors` enumeration of `generator/dryrun.py`: the pipeline only
distinguishes `PERMISSION_DENIED` from every other kind, so all other
kinds are collapsed into one constructor carrying their name. -/
inductive Errors where
  | permission_denied : Errors
  | otherKind : String → Errors
deriving DecidableEq, Repr

/-- A raised Python exception, as observed by the pipeline: either a
`DryRunError` (kind + `use_cloud_function` flag) or any other exception
with its message. -/
inductive PyErr where
  | dryRunError : Errors → Bool → PyErr
  | exn : String → PyErr
deriving DecidableEq, Repr

/-! ## Data model for the histogram view -/

/-- One dimension dictionary as produced by
`lookml_utils._generate_dimensions` or carried on a view: its `name` key
plus the remaining key/value entries (sql, type, ...), which the histogram
view's filtering logic never inspects. -/
structure Dimension where
  name : String
  fields : List (String × String)
deriving DecidableEq, Repr

/-- A declared dimension override in a table entry of a spec: a default
option and the list of declared options. -/
structure DimDecl where
  default : String
  options : List String
deriving DecidableEq, Repr

/-- One entry of a view spec's `tables` list: the backing table reference
and the declared dimension overrides (a dict keyed by dimension name). -/
structure TableEntry where
  table : String
  dimensions : List (String × DimDecl)
deriving DecidableEq, Repr

/-- A measure dictionary as built by
`OperationalMonitoringHistogramView._percentile_measure`:
`{"name": ..., "type": ..., "sql": ...}`. -/
structure Measure where
  name : String
  type : String
  sql : String
deriving DecidableEq, Repr

/-- A parameter dictionary carried on a view (opaque to the histogram
view's logic, passed through unchanged). -/
abbrev Parameter := List (String × String)

/-- The single view body inside the dictionary returned by
`OperationalMonitoringHistogramView.to_lookml`. -/
structure ViewBody where
  name : String
  sql_table_name : String
  dimensions : List Dimension
  parameters : List Parameter
  measures : List Measure
deriving DecidableEq, Repr

/-- The dictionary returned by `OperationalMonitoringHistogramView.to_lookml`:
`{"views": [...]}`. -/
structure LookmlViews where
  views : List ViewBody
deriving DecidableEq, Repr

/-- The state of an `OperationalMonitoringHistogramView` object: namespace,
name and tables are set at construction; `dimensions` and `parameters` are
carried on the object (and `dimensions` is extended in place by
`to_lookml`); `percentile_ci_labels` is the list of declared percentile CI
labels inherited from the operational-monitoring base class. -/
structure OperationalMonitoringHistogramView where
  «namespace» : String
  name : String
  tables : List TableEntry
  dimensions : List Dimension
  parameters : List Parameter
  percentile_ci_labels : List String
deriving DecidableEq, Repr

namespace OperationalMonitoringHistogramView

/-- The class attribute `type` of `OperationalMonitoringHistogramView`. -/
def view_type : String := "operational_monitoring_histogram_view"

end OperationalMonitoringHistogramView

/-- `ALLOWED_DIMENSIONS` from
`generator/views/operational_monitoring_histogram_view.py` (a Python set,
modelled as the list of its elements). -/
def ALLOWED_DIMENSIONS : List String :=
  ["branch", "probe", "histogram__VALUES__key", "histogram__VALUES__value"]

/-- The fixed head of the SQL template of `_percentile_measure`: the
result of `textwrap.dedent` on the template literal, up to (and
including) the final `).` that precedes the interpolated label.  The
template references the shared `percentile_conf` parameter and the merged
histogram aggregate. -/
def percentileSqlHead : String :=
  "\n`moz-fx-data-shared-prod`.udf_js.jackknife_percentile_ci(\n    {% parameter percentile_conf %},\n    STRUCT(\n        mozfun.hist.merge(\n          ARRAY_AGG(\n            ${TABLE}.histogram IGNORE NULLS\n          )\n        ).values AS values\n    )\n)."

/-- The full dedented SQL of `_percentile_measure` for a given label:
the fixed template head, the projected label field, and the trailing
newline left by `dedent`. -/
def percentileSql (percentile_ci_label : String) : String :=
  percentileSqlHead ++ percentile_ci_label ++ "\n"

namespace OperationalMonitoringHistogramView

/-- `OperationalMonitoringHistogramView._percentile_measure`: the measure
dictionary synthesized for one percentile CI label. -/
def percentile_measure (percentile_ci_label : String) : Measure :=
  { name := percentile_ci_label
    type := "number"
    sql := percentileSql percentile_ci_label }

/-- The filter applied to the introspected dimensions in `to_lookml`:
keep a dimension when its name is in `ALLOWED_DIMENSIONS` or among the
keys of the first table entry's declared dimension overrides. -/
def filtered_dimensions (t0 : TableEntry) (all_dimensions : List Dimension) :
    List Dimension :=
  all_dimensions.filter fun d =>
    d.name ∈ ALLOWED_DIMENSIONS ∨ d.name ∈ t0.dimensions.map Prod.fst

/-- `OperationalMonitoringHistogramView.to_lookml`.
The schema introspection step (`lookml_utils._generate_dimensions`, a call
into the dry-run collaborator) is threaded in as the function
`generate_dimensions` from the reference table to either the introspected
dimension list or a raised error.  The Python method mutates
`self.dimensions` in place (`self.dimensions.extend(...)`); here the
updated view object is returned alongside the rendered dictionary. -/
def to_lookml (v : OperationalMonitoringHistogramView)
    (generate_dimensions : String → Except PyErr (List Dimension)) :
    Except PyErr (OperationalMonitoringHistogramView × LookmlViews) :=
  match v.tables with
  | [] =>
      .error (.exn ("Operational Monitoring view " ++ v.name ++ " has no tables"))
  | t0 :: _ =>
      match generate_dimensions t0.table with
      | .error e => .error e
      | .ok all_dimensions =>
          let fd := filtered_dimensions t0 all_dimensions
          let v' := { v with dimensions := v.dimensions ++ fd }
          .ok (v',
            { views :=
                [{ name := v.name
                   sql_table_name := t0.table
                   dimensions := v'.dimensions
                   parameters := v.parameters
                   measures := v.percentile_ci_labels.map percentile_measure }] })

end OperationalMonitoringHistogramView

/-! ## The generation pipeline (`generator/lookml.py`) -/

/-- A Python value as seen by the pipeline when it inspects a view's
rendered lookml (only the comparison against the empty dict `{}` is ever
performed on it). -/
inductive PyVal where
  | str : String → PyVal
  | boolean : Bool → PyVal
  | vals : List PyVal → PyVal
  | dict : List (String × PyVal) → PyVal

/-- A Python dict at the top level of a view's rendered lookml; the empty
dict `{}` is the empty association list. -/
abbrev PyDict := List (String × PyVal)

/-- Injection of a dimension dictionary into the generic dict model. -/
def Dimension.toPyVal (d : Dimension) : PyVal :=
  .dict (("name", .str d.name) :: d.fields.map fun p => (p.1, PyVal.str p.2))

/-- Injection of a measure dictionary into the generic dict model. -/
def Measure.toPyVal (m : Measure) : PyVal :=
  .dict [("name", .str m.name), ("type", .str m.type), ("sql", .str m.sql)]

/-- Injection of a rendered view body into the generic dict model. -/
def ViewBody.toPyVal (b : ViewBody) : PyVal :=
  .dict
    [("name", .str b.name),
     ("sql_table_name", .str b.sql_table_name),
     ("dimensions", .vals (b.dimensions.map Dimension.toPyVal)),
     ("parameters", .vals (b.parameters.map fun p =>
        PyVal.dict (p.map fun q => (q.1, PyVal.str q.2)))),
     ("measures", .vals (b.measures.map Measure.toPyVal))]

/-- The dictionary `{"views": [...]}` returned by the histogram view's
`to_lookml`, as the pipeline sees it. -/
def LookmlViews.toPyDict (l : LookmlViews) : PyDict :=
  [("views", .vals (l.views.map ViewBody.toPyVal))]

/-- `FILE_HEADER` from `generator/lookml.py`. -/
def FILE_HEADER : String :=
  "\n# *Do not manually modify this file*\n#\n# This file has been generated via https://github.com/mozilla/lookml-generator\n# You can extend this view in the looker-spoke-default project (https://github.com/mozilla/looker-spoke-default)\n\n"

/-- The output path of a view: `out_dir / f"{view.name}.view.lkml"`. -/
def viewPath (out_dir name : String) : String :=
  out_dir ++ "/" ++ name ++ ".view.lkml"

/-- The observable outcome of running `_generate_views` (a Python
generator) to completion or until an exception escapes it: the output
paths at which files were produced (in order), the paths yielded to the
caller (in order), and the exception that escaped the generator, if
any. -/
structure GenResult where
  writes : List String
  yielded : List String
  error : Option PyErr
deriving DecidableEq, Repr

/-- `_generate_views` from `generator/lookml.py`.

Each view is represented by its name together with the outcome of its
`view.to_lookml(v1_name, dryrun)` call (the view objects themselves are
heterogeneous and their rendering is per-variant, so the pipeline is
modelled as acting on those outcomes).  The fallback collaborator
`get_file_from_looker_hub` is threaded in as the predicate
`fetch_from_looker_hub` telling, per path, whether the fetch succeeds
(producing the file at that path) or raises.

Control flow, as in the source: an empty rendered dict is skipped without
writing or yielding; a successful render writes the file and yields its
path; a `DryRunError` with `PERMISSION_DENIED` kind and the
`use_cloud_function` flag substitutes the looker-hub copy (yielding the
path) or, when that fetch fails, skips this one view; any other
`DryRunError` is re-raised, and any other exception propagates, ending
the generator. -/
def generateViews (out_dir : String)
    (views : List (String × Except PyErr PyDict))
    (fetch_from_looker_hub : String → Bool) : GenResult :=
  match views with
  | [] => { writes := [], yielded := [], error := none }
  | (name, render) :: rest =>
      let path := viewPath out_dir name
      match render with
      | .ok lookml =>
          if lookml.isEmpty then
            generateViews out_dir rest fetch_from_looker_hub
          else
            let r := generateViews out_dir rest fetch_from_looker_hub
            { writes := path :: r.writes
              yielded := path :: r.yielded
              error := r.error }
      | .error (.dryRunError .permission_denied true) =>
          if fetch_from_looker_hub path then
            let r := generateViews out_dir rest fetch_from_looker_hub
            { writes := path :: r.writes
              yielded := path :: r.yielded
              error := r.error }
          else
            generateViews out_dir rest fetch_from_looker_hub
      | .error e => { writes := [], yielded := [], error := some e }

/-- The `(name, render outcome)` pair that an operational-monitoring
histogram view contributes to `_generate_views`: its name together with
its `to_lookml` result (the updated view object is dropped, the rendered
dictionary is what the pipeline inspects). -/
def histogramViewJob (v : OperationalMonitoringHistogramView)
    (generate_dimensions : String → Except PyErr (List Dimension)) :
    String × Except PyErr PyDict :=
  (v.name, (v.to_lookml generate_dimensions).map fun r => r.2.toPyDict)

/-! ## Explore generation (`_generate_explores`) -/

/-- One explore to generate, as `_generate_explores` sees it: its name,
the result of `explore.get_dependent_views()` and the rendered body of
`explore.to_lookml(v1_name)` (both computed by the explore variant
classes, which are external to the embedded sources). -/
structure ExploreJob where
  name : String
  dependent_views : List String
  body : String
deriving DecidableEq, Repr

/-- The file-level lookml dict built for one explore:
`{"includes": [...], "explores": ...}`. -/
structure ExploreFileLookml where
  includes : List String
  explores : String
deriving DecidableEq, Repr

/-- One entry of an explore's `includes` list:
`f"/looker-hub/{namespace}/views/{view}.view.lkml"`. -/
def includeEntry («namespace» view : String) : String :=
  "/looker-hub/" ++ «namespace» ++ "/views/" ++ view ++ ".view.lkml"

/-- The output path of an explore: `out_dir / (explore_name + ".explore.lkml")`. -/
def explorePath (out_dir name : String) : String :=
  out_dir ++ "/" ++ name ++ ".explore.lkml"

/-- `_generate_explores` from `generator/lookml.py`: for each explore,
build the file lookml whose `includes` list enumerates exactly the
dependent views (never a wildcard), and write it at the explore's path. -/
def generateExplores (out_dir «namespace» : String)
    (explores : List ExploreJob) : List (String × ExploreFileLookml) :=
  explores.map fun e =>
    (explorePath out_dir e.name,
     { includes := e.dependent_views.map (includeEntry «namespace»)
       explores := e.body })

/-! ## Variant registries and dashboard generation -/

/-- Python dict lookup `d[k]`: a present key returns its value, a missing
key raises `KeyError(k)` — the error payload is the offending key and
nothing else. -/
def dictLookup {α : Type} (d : List (String × α)) (k : String) :
    Except String α :=
  match d.find? (fun p => p.1 == k) with
  | some p => .ok p.2
  | none => .error k

/-- A view spec dictionary (`ViewDict`): the `type` discriminator and the
`tables` list. -/
structure ViewDict where
  type : String
  tables : List TableEntry
deriving DecidableEq, Repr

/-- `_get_views_from_dict` from `generator/lookml.py`: for each
`(view_name, view_info)` entry, look the `type` discriminator up in the
`VIEW_TYPES` registry (a `KeyError` on an unregistered discriminator is
fatal) and construct the view via the registered `from_dict`
constructor applied to `(namespace, view_name, view_info)`. -/
def getViewsFromDict {α : Type}
    (VIEW_TYPES : List (String × (String → String → ViewDict → α)))
    (views : List (String × ViewDict)) («namespace» : String) :
    Except String (List α) :=
  match views with
  | [] => .ok []
  | (view_name, view_info) :: rest => do
      let ctor ← dictLookup VIEW_TYPES view_info.type
      let vs ← getViewsFromDict VIEW_TYPES rest «namespace»
      pure (ctor «namespace» view_name view_info :: vs)

/-- A dashboard spec dictionary, of which the pipeline itself inspects
only the `type` discriminator. -/
structure DashboardDict where
  type : String
deriving DecidableEq, Repr

/-- The observable outcome of `_generate_dashboards`: files written as
`(path, content)` pairs, paths yielded, and the exception that escaped
the generator, if any (a `KeyError` carrying the unregistered
discriminator). -/
structure DashGenResult where
  writes : List (String × String)
  yielded : List String
  error : Option String
deriving DecidableEq, Repr

/-- `_generate_dashboards` from `generator/lookml.py`: look the `type`
discriminator up in the `DASHBOARD_TYPES` registry (a `KeyError` on an
unregistered discriminator is fatal), build and render the dashboard via
the registered variant (its `from_dict` and `to_lookml`, external to the
embedded sources, are combined into one builder function argument), and
write `FILE_HEADER + dashboard_lookml` at the dashboard's path. -/
def generateDashboards
    (DASHBOARD_TYPES : List (String × (String → String → DashboardDict → String)))
    (dash_dir «namespace» : String)
    (dashboards : List (String × DashboardDict)) : DashGenResult :=
  match dashboards with
  | [] => { writes := [], yielded := [], error := none }
  | (dashboard_name, dashboard_info) :: rest =>
      match dictLookup DASHBOARD_TYPES dashboard_info.type with
      | .error k => { writes := [], yielded := [], error := some k }
      | .ok builder =>
          let dashboard_lookml := builder «namespace» dashboard_name dashboard_info
          let dash_path := dash_dir ++ "/" ++ dashboard_name ++ ".dashboard.lookml"
          let r := generateDashboards DASHBOARD_TYPES dash_dir «namespace» rest
          { writes := (dash_path, FILE_HEADER ++ dashboard_lookml) :: r.writes
            yielded := dash_path :: r.yielded
            error := r.error }

/-! ## Spec-modelled collaborators

The repository's dashboard builder
(`OperationalMonitoringDashboard.to_lookml`) and the operational-monitoring
base class supplying `from_dict` are not among the embedded sources (only
their tests and callers are), so they are modelled from the specification
here. -/

/-- One table entry of a dashboard spec, as the dashboard builder reads
it: declared dimensions (name, default, options) and the optional
grouping dimension. -/
structure DashboardTableSpec where
  table : String
  group_by_dimension : Option String
  dimensions : List (String × DimDecl)
deriving DecidableEq, Repr

/-- A dashboard-level `string_filter` block for one declared dimension. -/
structure StringFilter where
  name : String
  type : String
  default_value : String
  allow_multiple_values : Bool
  required : Bool
  ui_type : String
  ui_display : String
  options : List String
deriving DecidableEq, Repr

/-- Modelled from the spec: the dashboard builder
(`OperationalMonitoringDashboard.to_lookml`, not under the embedded
sources) emits one dashboard-level filter per declared dimension.  A
dimension that is not the grouping dimension gets a single-valued,
required, dropdown filter defaulting to its declared default, with the
options in declared order; the grouping dimension instead gets a
multi-valued, required, advanced-UI filter whose default is all declared
options sorted and joined by `","`, with the options sorted. -/
def dashboardDimensionFilter (group_by_dimension : Option String)
    (dimension_name : String) (decl : DimDecl) : StringFilter :=
  if group_by_dimension = some dimension_name then
    let sorted_options := List.insertionSort (· ≤ ·) decl.options
    { name := dimension_name
      type := "string_filter"
      default_value := String.intercalate "," sorted_options
      allow_multiple_values := true
      required := true
      ui_type := "advanced"
      ui_display := "inline"
      options := sorted_options }
  else
    { name := dimension_name
      type := "string_filter"
      default_value := decl.default
      allow_multiple_values := false
      required := true
      ui_type := "dropdown_menu"
      ui_display := "inline"
      options := decl.options }

/-- Modelled from the spec: the per-dimension dashboard-level filters of
one dashboard table spec, one per declared dimension, in declared
order. -/
def dashboardDimensionFilters (t : DashboardTableSpec) : List StringFilter :=
  t.dimensions.map fun p => dashboardDimensionFilter t.group_by_dimension p.1 p.2

namespace OperationalMonitoringHistogramView

/-- Modelled from the spec: `from_dict(namespace, name, spec)` of the
operational-monitoring view family (defined on the base class, not under
the embedded sources) is pure construction from the spec mapping — the
view starts with the namespace, name and declared tables, empty
dimension and parameter lists, and the percentile CI labels declared on
the operational-monitoring view class. -/
def from_dict («namespace» name : String) (spec : ViewDict) :
    OperationalMonitoringHistogramView :=
  { «namespace» := «namespace»
    name := name
    tables := spec.tables
    dimensions := []
    parameters := []
    percentile_ci_labels := ["percentile"] }

end OperationalMonitoringHistogramView

/-- A sample `VIEW_TYPES` registry containing the one view variant whose
class is among the embedded sources, registered under its class `type`
attribute. -/
def sampleViewRegistry :
    List (String × (String → String → ViewDict → OperationalMonitoringHistogramView)) :=
  [(OperationalMonitoringHistogramView.view_type,
    OperationalMonitoringHistogramView.from_dict)]

/-- `from_dict` followed by `to_lookml` through the registry, against a
schema-introspector stub that always succeeds (`stub` gives the column
dimensions per table): the composition underlying the determinism
property.  The outer `Except String` is the registry lookup, the inner
`Except PyErr` the rendering. -/
def buildAndRender {α : Type}
    (VIEW_TYPES : List (String × (String → String → ViewDict → α)))
    (render : α → Except PyErr LookmlViews)
    («namespace» name : String) (spec : ViewDict) :
    Except String (Except PyErr LookmlViews) :=
  (dictLookup VIEW_TYPES spec.type).map fun ctor =>
    render (ctor «namespace» name spec)

/-- The rendering half of `buildAndRender` for the histogram view variant
under a fixed, always-successful introspector stub. -/
def renderWithStub (stub : String → List Dimension)
    (v : OperationalMonitoringHistogramView) : Except PyErr LookmlViews :=
  (v.to_lookml fun t => .ok (stub t)).map Prod.snd

/-! ## Concrete sample inputs

Small concrete artifacts, mirroring the repository's operational
monitoring test fixtures, used to instantiate the theorems below on
closed inputs. -/

/-- A histogram view with an empty `tables` list. -/
def sampleEmptyView : OperationalMonitoringHistogramView :=
  { «namespace» := "operational_monitoring"
    name := "fission"
    tables := []
    dimensions := []
    parameters := []
    percentile_ci_labels := ["percentile"] }

/-- The table entry of the test fixture: the backing table and the two
declared dimension overrides. -/
def sampleTable : TableEntry :=
  { table := "moz-fx-data-shared-prod.operational_monitoring.bug_123_test_statistics"
    dimensions :=
      [("cores_count", { default := "4", options := ["4", "1"] }),
       ("os", { default := "Windows", options := ["Windows", "Linux"] })] }

/-- A histogram view over `sampleTable`. -/
def sampleView : OperationalMonitoringHistogramView :=
  { «namespace» := "operational_monitoring"
    name := "fission"
    tables := [sampleTable]
    dimensions := []
    parameters := []
    percentile_ci_labels := ["percentile"] }

/-- An introspected schema containing allow-listed columns, a declared
override column and an extraneous column. -/
def sampleSchema : List Dimension :=
  [{ name := "client_id", fields := [("sql", "${TABLE}.client_id"), ("type", "string")] },
   { name := "branch", fields := [("sql", "${TABLE}.branch"), ("type", "string")] },
   { name := "os", fields := [("sql", "${TABLE}.os"), ("type", "string")] }]

/-- A schema introspector stub that always succeeds with `sampleSchema`. -/
def sampleIntrospector : String → Except PyErr (List Dimension) :=
  fun _ => .ok sampleSchema

/-- A schema introspector stub that always raises. -/
def failingIntrospector : String → Except PyErr (List Dimension) :=
  fun _ => .error (.exn "introspection must not be reached")

/-- One explore spec dictionary, of which `_generate_explores` itself
inspects only the `type` discriminator (the remaining fields are consumed
by the registered explore variant). -/
structure ExploreDict where
  type : String
deriving DecidableEq, Repr

/-- The observable outcome of `_generate_explores` run to completion or
until an exception escapes it: files written as `(path, file lookml)`
pairs, yielded paths, and the exception that escaped the generator, if
any (a `KeyError` carrying the unregistered discriminator). -/
structure ExploreGenResult where
  writes : List (String × ExploreFileLookml)
  yielded : List String
  error : Option String
deriving DecidableEq, Repr

/-- `_generate_explores` from `generator/lookml.py` including the
`EXPLORE_TYPES[defn["type"]]` registry dispatch: look the discriminator
up (a `KeyError` on an unregistered discriminator is fatal and ends the
generator), construct the explore via the registered
`from_dict(explore_name, defn, views_dir)` — the explore variant classes
are external to the embedded sources, so a registered constructor yields
the explore's name, dependent views and rendered body — then write the
file lookml whose `includes` enumerate exactly the dependent views.
`generateExplores` above is the per-explore construction after a
successful dispatch. -/
def generateExploresFromDict
    (EXPLORE_TYPES : List (String × (String → ExploreDict → String → ExploreJob)))
    (out_dir «namespace» views_dir : String)
    (explores : List (String × ExploreDict)) : ExploreGenResult :=
  match explores with
  | [] => { writes := [], yielded := [], error := none }
  | (explore_name, defn) :: rest =>
      match dictLookup EXPLORE_TYPES defn.type with
      | .error k => { writes := [], yielded := [], error := some k }
      | .ok ctor =>
          let explore := ctor explore_name defn views_dir
          let path := explorePath out_dir explore_name
          let file_lookml : ExploreFileLookml :=
            { includes := explore.dependent_views.map (includeEntry «namespace»)
              explores := explore.body }
          let r := generateExploresFromDict EXPLORE_TYPES out_dir «namespace» views_dir rest
          { writes := (path, file_lookml) :: r.writes
            yielded := path :: r.yielded
            error := r.error }

/-- A sample `EXPLORE_TYPES` registry with one registered explore
variant (its constructor stands for the variant's `from_dict`). -/
def sampleExploreRegistry :
    List (String × (String → ExploreDict → String → ExploreJob)) :=
  [("operational_monitoring_explore",
    fun explore_name _ _ =>
      { name := explore_name, dependent_views := ["fission"], body := "explore body" })]

/-- A sample `DASHBOARD_TYPES` registry with one registered dashboard
variant (its builder stands for `from_dict` followed by `to_lookml`). -/
def sampleDashboardRegistry :
    List (String × (String → String → DashboardDict → String)) :=
  [("operational_monitoring_dashboard", fun _ _ _ => "- dashboard: fission")]

/-- The test fixture's dashboard table spec with `group_by_dimension`
set to `os`. -/
def sampleDashboardTable : DashboardTableSpec :=
  { table := "moz-fx-data-shared-prod.operational_monitoring.bug_123_test_statistics"
    group_by_dimension := some "os"
    dimensions :=
      [("cores_count", { default := "4", options := ["4", "1"] }),
       ("os", { default := "Windows", options := ["Windows", "Linux"] })] }

/-- A sample explore with one dependent view. -/
def sampleExploreJob : ExploreJob :=
  { name := "fission"
    dependent_views := ["fission"]
    body := "explore body" }

/-! ## Theorems -/

/-- C3: an operational-monitoring histogram view whose `tables` list is
empty raises (`to_lookml` returns the "has no tables" error) before any
schema-introspection call is made — the result is the same error for
every introspector — and the pipeline run containing that view produces
no output file for it (no write, no yielded path). -/
theorem histogram_empty_tables_raises_before_introspection
    (v : OperationalMonitoringHistogramView) (h : v.tables = [])
    (generate_dimensions generate_dimensions' : String → Except PyErr (List Dimension))
    (out_dir : String) (rest : List (String × Except PyErr PyDict))
    (fetch : String → Bool) :
    v.to_lookml generate_dimensions =
      .error (.exn ("Operational Monitoring view " ++ v.name ++ " has no tables"))
    ∧ v.to_lookml generate_dimensions = v.to_lookml generate_dimensions'
    ∧ generateViews out_dir (histogramViewJob v generate_dimensions :: rest) fetch =
        { writes := [], yielded := [],
          error := some (.exn ("Operational Monitoring view " ++ v.name ++ " has no tables")) } := by
  have h1 : ∀ g : String → Except PyErr (List Dimension),
      v.to_lookml g =
        .error (.exn ("Operational Monitoring view " ++ v.name ++ " has no tables")) := by
    intro g
    simp only [OperationalMonitoringHistogramView.to_lookml, h]
  refine ⟨h1 _, (h1 _).trans (h1 _).symm, ?_⟩
  simp only [generateViews, histogramViewJob, h1, Except.map]

/-- C4: for the histogram view variant, every dimension of the rendered
output is either a dimension already carried on the view object or an
introspected column whose name is in `ALLOWED_DIMENSIONS` or among the
keys of the first table entry's declared dimension overrides; no other
introspected column appears, for any introspected schema. -/
theorem histogram_dimensions_allowlist
    (v : OperationalMonitoringHistogramView) (t0 : TableEntry) (ts : List TableEntry)
    (generate_dimensions : String → Except PyErr (List Dimension))
    (all_dimensions : List Dimension)
    (htab : v.tables = t0 :: ts)
    (hok : generate_dimensions t0.table = .ok all_dimensions) :
    ∃ v' body,
      v.to_lookml generate_dimensions = .ok (v', { views := [body] }) ∧
      ∀ d ∈ body.dimensions,
        d ∈ v.dimensions ∨ d.name ∈ ALLOWED_DIMENSIONS ∨
          d.name ∈ t0.dimensions.map Prod.fst := by
  have hres : v.to_lookml generate_dimensions =
      .ok ({ v with dimensions :=
               v.dimensions ++
                 OperationalMonitoringHistogramView.filtered_dimensions t0 all_dimensions },
           { views :=
               [{ name := v.name
                  sql_table_name := t0.table
                  dimensions :=
                    v.dimensions ++
                      OperationalMonitoringHistogramView.filtered_dimensions t0 all_dimensions
                  parameters := v.parameters
                  measures := v.percentile_ci_labels.map
                    OperationalMonitoringHistogramView.percentile_measure }] }) := by
    simp only [OperationalMonitoringHistogramView.to_lookml, htab, hok]
  refine ⟨_, _, hres, ?_⟩
  intro d hd
  rcases List.mem_append.1 hd with h1 | h2
  · exact Or.inl h1
  · right
    have := List.mem_filter.1 h2
    simpa using this.2

/-- C5: for a histogram view with a non-empty tables list, the rendered
measures are exactly one per declared percentile CI label, in declared
order, independent of the introspected columns; each is of type `number`,
its SQL is the fixed jackknife_percentile_ci template projecting the
label's field, and the template references the shared `percentile_conf`
parameter. -/
theorem histogram_measures_percentile_synthesis
    (v : OperationalMonitoringHistogramView) (t0 : TableEntry) (ts : List TableEntry)
    (generate_dimensions : String → Except PyErr (List Dimension))
    (all_dimensions : List Dimension)
    (htab : v.tables = t0 :: ts)
    (hok : generate_dimensions t0.table = .ok all_dimensions) :
    ∃ v' body,
      v.to_lookml generate_dimensions = .ok (v', { views := [body] }) ∧
      body.measures = v.percentile_ci_labels.map
        OperationalMonitoringHistogramView.percentile_measure ∧
      (∀ m ∈ body.measures,
        m.type = "number" ∧ m.sql = percentileSqlHead ++ m.name ++ "\n") ∧
      (∃ a b, percentileSqlHead = a ++ "{% parameter percentile_conf %}" ++ b) := by
  have hres : v.to_lookml generate_dimensions =
      .ok ({ v with dimensions :=
               v.dimensions ++
                 OperationalMonitoringHistogramView.filtered_dimensions t0 all_dimensions },
           { views :=
               [{ name := v.name
                  sql_table_name := t0.table
                  dimensions :=
                    v.dimensions ++
                      OperationalMonitoringHistogramView.filtered_dimensions t0 all_dimensions
                  parameters := v.parameters
                  measures := v.percentile_ci_labels.map
                    OperationalMonitoringHistogramView.percentile_measure }] }) := by
    simp only [OperationalMonitoringHistogramView.to_lookml, htab, hok]
  refine ⟨_, _, hres, rfl, ?_, ?_⟩
  · intro m hm
    rcases List.mem_map.1 hm with ⟨l, _, rfl⟩
    exact ⟨rfl, rfl⟩
  · exact ⟨"\n`moz-fx-data-shared-prod`.udf_js.jackknife_percentile_ci(\n    ",
      ",\n    STRUCT(\n        mozfun.hist.merge(\n          ARRAY_AGG(\n            ${TABLE}.histogram IGNORE NULLS\n          )\n        ).values AS values\n    )\n).",
      by rfl⟩

/-- C10: the histogram view's `to_lookml` is not idempotent on the view
object: it extends `self.dimensions` in place, so a second call on the
same object (with the same introspector) renders every allow-listed
introspected dimension twice and its output differs from the first
call's. -/
theorem histogram_to_lookml_not_idempotent
    (v : OperationalMonitoringHistogramView) (t0 : TableEntry) (ts : List TableEntry)
    (generate_dimensions : String → Except PyErr (List Dimension))
    (all_dimensions : List Dimension)
    (htab : v.tables = t0 :: ts)
    (hok : generate_dimensions t0.table = .ok all_dimensions)
    (hne : OperationalMonitoringHistogramView.filtered_dimensions t0 all_dimensions ≠ []) :
    ∃ v1 l1 v2 l2,
      v.to_lookml generate_dimensions = .ok (v1, l1) ∧
      v1.to_lookml generate_dimensions = .ok (v2, l2) ∧
      (∃ body1, l1 = { views := [body1] } ∧
        body1.dimensions =
          v.dimensions ++
            OperationalMonitoringHistogramView.filtered_dimensions t0 all_dimensions) ∧
      (∃ body2, l2 = { views := [body2] } ∧
        body2.dimensions =
          (v.dimensions ++
            OperationalMonitoringHistogramView.filtered_dimensions t0 all_dimensions) ++
            OperationalMonitoringHistogramView.filtered_dimensions t0 all_dimensions ∧
        ∀ d ∈ OperationalMonitoringHistogramView.filtered_dimensions t0 all_dimensions,
          2 ≤ body2.dimensions.count d) ∧
      l1 ≠ l2 := by
  set fd := OperationalMonitoringHistogramView.filtered_dimensions t0 all_dimensions with hfd
  have hres1 : v.to_lookml generate_dimensions =
      .ok ({ v with dimensions := v.dimensions ++ fd },
           { views :=
               [{ name := v.name
                  sql_table_name := t0.table
                  dimensions := v.dimensions ++ fd
                  parameters := v.parameters
                  measures := v.percentile_ci_labels.map
                    OperationalMonitoringHistogramView.percentile_measure }] }) := by
    simp only [OperationalMonitoringHistogramView.to_lookml, htab, hok, hfd]
  have hres2 : ({ v with dimensions := v.dimensions ++ fd} :
        OperationalMonitoringHistogramView).to_lookml generate_dimensions =
      .ok ({ v with dimensions := (v.dimensions ++ fd) ++ fd },
           { views :=
               [{ name := v.name
                  sql_table_name := t0.table
                  dimensions := (v.dimensions ++ fd) ++ fd
                  parameters := v.parameters
                  measures := v.percentile_ci_labels.map
                    OperationalMonitoringHistogramView.percentile_measure }] }) := by
    simp only [OperationalMonitoringHistogramView.to_lookml, htab, hok, hfd]
  refine ⟨_, _, _, _, hres1, hres2, ⟨_, rfl, rfl⟩, ⟨_, rfl, rfl, ?_⟩, ?_⟩
  · intro d hd
    have hpos : 1 ≤ fd.count d := List.count_pos_iff.2 hd
    simp only [List.count_append]
    omega
  · intro heq
    have hdim : v.dimensions ++ fd = (v.dimensions ++ fd) ++ fd := by
      have h1 := congrArg (fun l => (l.views.map ViewBody.dimensions)) heq
      simpa using h1
    have hlen := congrArg List.length hdim
    simp only [List.length_append] at hlen
    have : fd.length = 0 := by omega
    exact hne (List.length_eq_zero.1 this)

/-- Witness for C3: the empty-tables view raises the "has no tables"
error for any introspector, and the pipeline writes and yields nothing
for it, at a concrete input. -/
theorem histogram_empty_tables_raises_before_introspection_witness :
    sampleEmptyView.tables = [] ∧
    (sampleEmptyView.to_lookml sampleIntrospector =
      .error (.exn ("Operational Monitoring view " ++ sampleEmptyView.name ++ " has no tables"))
    ∧ sampleEmptyView.to_lookml sampleIntrospector =
        sampleEmptyView.to_lookml failingIntrospector
    ∧ generateViews "looker-hub/operational_monitoring/views"
        (histogramViewJob sampleEmptyView sampleIntrospector :: []) (fun _ => false) =
        { writes := [], yielded := [],
          error := some (.exn ("Operational Monitoring view " ++ sampleEmptyView.name ++ " has no tables")) }) :=
  ⟨rfl,
   histogram_empty_tables_raises_before_introspection sampleEmptyView rfl
     sampleIntrospector failingIntrospector
     "looker-hub/operational_monitoring/views" [] (fun _ => false)⟩

/-- Witness for C4: on a concrete schema with an extraneous `client_id`
column, every rendered dimension is allow-listed or declared. -/
theorem histogram_dimensions_allowlist_witness :
    sampleView.tables = sampleTable :: [] ∧
    sampleIntrospector sampleTable.table = .ok sampleSchema ∧
    (∃ v' body,
      sampleView.to_lookml sampleIntrospector = .ok (v', { views := [body] }) ∧
      ∀ d ∈ body.dimensions,
        d ∈ sampleView.dimensions ∨ d.name ∈ ALLOWED_DIMENSIONS ∨
          d.name ∈ sampleTable.dimensions.map Prod.fst) :=
  ⟨rfl, rfl,
   histogram_dimensions_allowlist sampleView sampleTable [] sampleIntrospector
     sampleSchema rfl rfl⟩

/-- Witness for C5: the percentile measures of a concrete histogram view
are synthesized from the declared labels. -/
theorem histogram_measures_percentile_synthesis_witness :
    sampleView.tables = sampleTable :: [] ∧
    sampleIntrospector sampleTable.table = .ok sampleSchema ∧
    (∃ v' body,
      sampleView.to_lookml sampleIntrospector = .ok (v', { views := [body] }) ∧
      body.measures = sampleView.percentile_ci_labels.map
        OperationalMonitoringHistogramView.percentile_measure ∧
      (∀ m ∈ body.measures,
        m.type = "number" ∧ m.sql = percentileSqlHead ++ m.name ++ "\n") ∧
      (∃ a b, percentileSqlHead = a ++ "{% parameter percentile_conf %}" ++ b)) :=
  ⟨rfl, rfl,
   histogram_measures_percentile_synthesis sampleView sampleTable [] sampleIntrospector
     sampleSchema rfl rfl⟩

/-- Witness for C10: on a concrete view and schema, calling `to_lookml`
twice on the same object duplicates the allow-listed dimensions and
changes the output. -/
theorem histogram_to_lookml_not_idempotent_witness :
    sampleView.tables = sampleTable :: [] ∧
    sampleIntrospector sampleTable.table = .ok sampleSchema ∧
    OperationalMonitoringHistogramView.filtered_dimensions sampleTable sampleSchema ≠ [] ∧
    (∃ v1 l1 v2 l2,
      sampleView.to_lookml sampleIntrospector = .ok (v1, l1) ∧
      v1.to_lookml sampleIntrospector = .ok (v2, l2) ∧
      (∃ body1, l1 = { views := [body1] } ∧
        body1.dimensions =
          sampleView.dimensions ++
            OperationalMonitoringHistogramView.filtered_dimensions sampleTable sampleSchema) ∧
      (∃ body2, l2 = { views := [body2] } ∧
        body2.dimensions =
          (sampleView.dimensions ++
            OperationalMonitoringHistogramView.filtered_dimensions sampleTable sampleSchema) ++
            OperationalMonitoringHistogramView.filtered_dimensions sampleTable sampleSchema ∧
        ∀ d ∈ OperationalMonitoringHistogramView.filtered_dimensions sampleTable sampleSchema,
          2 ≤ body2.dimensions.count d) ∧
      l1 ≠ l2) :=
  ⟨rfl, rfl, by decide,
   histogram_to_lookml_not_idempotent sampleView sampleTable [] sampleIntrospector
     sampleSchema rfl rfl (by decide)⟩

/-- C7: a view whose rendering result is the empty dict `{}` produces no
output file and no yielded path, and generation continues with the
remaining views exactly as if the view were absent. -/
theorem generate_views_skips_empty_lookml
    (out_dir name : String) (rest : List (String × Except PyErr PyDict))
    (fetch : String → Bool) :
    generateViews out_dir ((name, Except.ok ([] : PyDict)) :: rest) fetch =
      generateViews out_dir rest fetch := by
  simp [generateViews]

/-- C6: in `_generate_views`, a `DryRunError` classified as
permission-denied with the cloud-function flag set is recovered by
fetching the previously generated artifact from looker-hub (the path is
produced and yielded, the run continues); if that fetch itself fails the
view is skipped (nothing written or yielded for it) and the run
continues; any `DryRunError` of a different classification, and any
other exception, propagates out and ends view generation. -/
theorem generate_views_fallback_handling
    (out_dir name : String) (rest : List (String × Except PyErr PyDict)) :
    (∀ fetch : String → Bool, fetch (viewPath out_dir name) = true →
      generateViews out_dir
          ((name, Except.error (PyErr.dryRunError .permission_denied true)) :: rest) fetch =
        { writes := viewPath out_dir name :: (generateViews out_dir rest fetch).writes
          yielded := viewPath out_dir name :: (generateViews out_dir rest fetch).yielded
          error := (generateViews out_dir rest fetch).error }) ∧
    (∀ fetch : String → Bool, fetch (viewPath out_dir name) = false →
      generateViews out_dir
          ((name, Except.error (PyErr.dryRunError .permission_denied true)) :: rest) fetch =
        generateViews out_dir rest fetch) ∧
    (∀ (fetch : String → Bool) (kind : Errors) (use_cloud_function : Bool),
      ¬(kind = Errors.permission_denied ∧ use_cloud_function = true) →
      generateViews out_dir
          ((name, Except.error (PyErr.dryRunError kind use_cloud_function)) :: rest) fetch =
        { writes := [], yielded := [],
          error := some (PyErr.dryRunError kind use_cloud_function) }) ∧
    (∀ (fetch : String → Bool) (msg : String),
      generateViews out_dir ((name, Except.error (PyErr.exn msg)) :: rest) fetch =
        { writes := [], yielded := [], error := some (PyErr.exn msg) }) := by
  refine ⟨?_, ?_, ?_, ?_⟩
  · intro fetch hf
    simp [generateViews, hf]
  · intro fetch hf
    simp [generateViews, hf]
  · intro fetch kind use_cloud_function hne
    cases kind with
    | permission_denied =>
        cases use_cloud_function with
        | true => exact absurd ⟨rfl, rfl⟩ hne
        | false => simp [generateViews]
    | otherKind s => cases use_cloud_function <;> simp [generateViews]
  · intro fetch msg
    simp [generateViews]

/-- Witness for C6: the three recovery behaviours at concrete inputs —
fallback fetch succeeding, fallback fetch failing, and a
fallback-ineligible error propagating. -/
theorem generate_views_fallback_handling_witness :
    generateViews "looker-hub"
        [("fission", Except.error (PyErr.dryRunError .permission_denied true))]
        (fun _ => true) =
      { writes := [viewPath "looker-hub" "fission"],
        yielded := [viewPath "looker-hub" "fission"], error := none } ∧
    generateViews "looker-hub"
        [("fission", Except.error (PyErr.dryRunError .permission_denied true))]
        (fun _ => false) =
      { writes := [], yielded := [], error := none } ∧
    generateViews "looker-hub"
        [("fission", Except.error (PyErr.dryRunError .permission_denied false))]
        (fun _ => true) =
      { writes := [], yielded := [],
        error := some (PyErr.dryRunError .permission_denied false) } := by
  refine ⟨?_, ?_, ?_⟩
  · exact (generate_views_fallback_handling "looker-hub" "fission" []).1
      (fun _ => true) rfl
  · exact (generate_views_fallback_handling "looker-hub" "fission" []).2.1
      (fun _ => false) rfl
  · exact (generate_views_fallback_handling "looker-hub" "fission" []).2.2.1
      (fun _ => true) .permission_denied false (by decide)

/-- Looking a key up in a registry that does not contain it yields the
`KeyError` carrying exactly that key. -/
theorem dictLookup_eq_error {α : Type} (d : List (String × α)) (k : String)
    (h : k ∉ d.map Prod.fst) : dictLookup d k = .error k := by
  have hfind : d.find? (fun p => p.1 == k) = none := by
    apply List.find?_eq_none.2
    intro x hx
    simp only [beq_iff_eq]
    intro hxe
    exact h (List.mem_map.2 ⟨x, hx, hxe⟩)
  simp [dictLookup, hfind]

/-- C2 (counterexample): an unregistered `type` discriminator is a fatal
error, but the raised `KeyError` carries only the offending
discriminator: two view entries with different names and namespaces
produce the very same error, which contains neither the artifact name
nor the namespace. -/
theorem unregistered_type_error_lacks_location :
    getViewsFromDict sampleViewRegistry
      [("myview", { type := "bogus_type", tables := [] })] "ns1" = .error "bogus_type" ∧
    getViewsFromDict sampleViewRegistry
      [("otherview", { type := "bogus_type", tables := [] })] "ns2" = .error "bogus_type" ∧
    ¬ ("myview".data <:+: "bogus_type".data) ∧
    ¬ ("ns1".data <:+: "bogus_type".data) :=
  ⟨rfl, rfl, by decide, by decide⟩

/-- C2 (amended): building an artifact whose `type` discriminator is not
a registered key of the corresponding variant registry (`VIEW_TYPES`,
`EXPLORE_TYPES`, `DASHBOARD_TYPES`) is a fatal error (a `KeyError`
ending generation), and the error carries exactly the offending
discriminator — the artifact's name and namespace are not part of the
error and appear, if at all, only in progress log lines emitted before
the lookup. -/
theorem unregistered_type_is_fatal_with_discriminator {α : Type}
    (VIEW_TYPES : List (String × (String → String → ViewDict → α)))
    (EXPLORE_TYPES : List (String × (String → ExploreDict → String → ExploreJob)))
    (DASHBOARD_TYPES : List (String × (String → String → DashboardDict → String)))
    (ns view_name explore_name dashboard_name : String)
    (out_dir views_dir dash_dir : String)
    (view_info : ViewDict) (defn : ExploreDict) (dashboard_info : DashboardDict)
    (hv : view_info.type ∉ VIEW_TYPES.map Prod.fst)
    (he : defn.type ∉ EXPLORE_TYPES.map Prod.fst)
    (hd : dashboard_info.type ∉ DASHBOARD_TYPES.map Prod.fst) :
    getViewsFromDict VIEW_TYPES [(view_name, view_info)] ns = .error view_info.type ∧
    generateExploresFromDict EXPLORE_TYPES out_dir ns views_dir [(explore_name, defn)] =
      { writes := [], yielded := [], error := some defn.type } ∧
    generateDashboards DASHBOARD_TYPES dash_dir ns [(dashboard_name, dashboard_info)] =
      { writes := [], yielded := [], error := some dashboard_info.type } := by
  refine ⟨?_, ?_, ?_⟩
  · simp [getViewsFromDict, dictLookup_eq_error _ _ hv, Bind.bind, Except.bind]
  · simp [generateExploresFromDict, dictLookup_eq_error _ _ he]
  · simp [generateDashboards, dictLookup_eq_error _ _ hd]

/-- Witness for C2 (amended): at a concrete unregistered discriminator,
view construction, explore generation and dashboard generation all fail
with exactly the discriminator as the error. -/
theorem unregistered_type_is_fatal_with_discriminator_witness :
    ("bogus_type" : String) ∉ sampleViewRegistry.map Prod.fst ∧
    ("bogus_type" : String) ∉ sampleExploreRegistry.map Prod.fst ∧
    ("bogus_type" : String) ∉ sampleDashboardRegistry.map Prod.fst ∧
    (getViewsFromDict sampleViewRegistry
        [("myview", { type := "bogus_type", tables := [] })] "ns1" = .error "bogus_type" ∧
      generateExploresFromDict sampleExploreRegistry "explores" "ns1" "views"
        [("myexplore", { type := "bogus_type" })] =
        { writes := [], yielded := [], error := some "bogus_type" } ∧
      generateDashboards sampleDashboardRegistry "dashboards" "ns1"
        [("mydash", { type := "bogus_type" })] =
        { writes := [], yielded := [], error := some "bogus_type" }) :=
  ⟨by decide, by decide, by decide,
   unregistered_type_is_fatal_with_discriminator sampleViewRegistry
     sampleExploreRegistry sampleDashboardRegistry
     "ns1" "myview" "myexplore" "mydash" "explores" "views" "dashboards"
     { type := "bogus_type", tables := [] } { type := "bogus_type" }
     { type := "bogus_type" } (by decide) (by decide) (by decide)⟩

/-- The include-entry template is injective in the view name: distinct
views give distinct include lines. -/
theorem includeEntry_injective (ns : String) :
    Function.Injective (includeEntry ns) := by
  intro a b h
  unfold includeEntry at h
  have hd := congrArg String.data h
  simp only [String.data_append, List.append_assoc] at hd
  apply String.ext
  have h1 := List.append_cancel_left hd
  have h2 := List.append_cancel_left h1
  have h3 := List.append_cancel_left h2
  exact List.append_cancel_right h3

/-- C8: every file written by `_generate_explores` has an `includes`
list that enumerates exactly one entry
`/looker-hub/{namespace}/views/{view}.view.lkml` per dependent view (in
order, with matching multiplicity); a string belongs to the includes
list iff it is the include entry of some dependent view, so views
outside the dependent set never appear, and the wildcard include
(`*` in view position) appears only if `*` itself were a dependent
view. -/
theorem generate_explores_includes_exact
    (out_dir ns : String) (explores : List ExploreJob)
    (p : String × ExploreFileLookml)
    (hp : p ∈ generateExplores out_dir ns explores) :
    ∃ e ∈ explores,
      p = (explorePath out_dir e.name,
        { includes := e.dependent_views.map (includeEntry ns), explores := e.body }) ∧
      p.2.includes = e.dependent_views.map (includeEntry ns) ∧
      (∀ s, s ∈ p.2.includes ↔ ∃ w ∈ e.dependent_views, s = includeEntry ns w) ∧
      (∀ w, p.2.includes.count (includeEntry ns w) = e.dependent_views.count w) ∧
      (includeEntry ns "*" ∈ p.2.includes ↔ "*" ∈ e.dependent_views) := by
  rcases List.mem_map.1 hp with ⟨e, he, rfl⟩
  refine ⟨e, he, rfl, rfl, ?_, ?_, ?_⟩
  · intro s
    simp only [List.mem_map]
    constructor
    · rintro ⟨w, hw, rfl⟩
      exact ⟨w, hw, rfl⟩
    · rintro ⟨w, hw, rfl⟩
      exact ⟨w, hw, rfl⟩
  · intro w
    exact List.count_map_of_injective _ _ (includeEntry_injective ns) w
  · exact List.mem_map_of_injective (includeEntry_injective ns)

/-- Witness for C8: a concrete explore with one dependent view produces
exactly its one include line and no wildcard. -/
theorem generate_explores_includes_exact_witness :
    (explorePath "explores" "fission",
      ({ includes := ["/looker-hub/opmon/views/fission.view.lkml"], explores := "explore body" } : ExploreFileLookml)) ∈
      generateExplores "explores" "opmon" [sampleExploreJob] ∧
    (∃ e ∈ [sampleExploreJob],
      (explorePath "explores" "fission",
        ({ includes := ["/looker-hub/opmon/views/fission.view.lkml"], explores := "explore body" } : ExploreFileLookml)) =
        (explorePath "explores" e.name,
          { includes := e.dependent_views.map (includeEntry "opmon"), explores := e.body }) ∧
      ({ includes := ["/looker-hub/opmon/views/fission.view.lkml"], explores := "explore body" } : ExploreFileLookml).includes =
        e.dependent_views.map (includeEntry "opmon") ∧
      (∀ s, s ∈ ({ includes := ["/looker-hub/opmon/views/fission.view.lkml"], explores := "explore body" } : ExploreFileLookml).includes ↔
        ∃ w ∈ e.dependent_views, s = includeEntry "opmon" w) ∧
      (∀ w, ({ includes := ["/looker-hub/opmon/views/fission.view.lkml"], explores := "explore body" } : ExploreFileLookml).includes.count (includeEntry "opmon" w) =
        e.dependent_views.count w) ∧
      (includeEntry "opmon" "*" ∈ ({ includes := ["/looker-hub/opmon/views/fission.view.lkml"], explores := "explore body" } : ExploreFileLookml).includes ↔
        "*" ∈ e.dependent_views)) :=
  ⟨by decide,
   generate_explores_includes_exact "explores" "opmon" [sampleExploreJob] _ (by decide)⟩

/-- The grouped `os` filter of the worked example evaluates to the
multi-valued filter with sorted, comma-joined default — matching the
repository's `test_dashboard_lookml_group_by_dimension` expectation
(`default_value: 'Linux,Windows'`). -/
theorem dashboard_filter_os_example :
    dashboardDimensionFilter (some "os") "os"
      { default := "Windows", options := ["Windows", "Linux"] } =
      { name := "os", type := "string_filter", default_value := "Linux,Windows",
        allow_multiple_values := true, required := true, ui_type := "advanced",
        ui_display := "inline", options := ["Linux", "Windows"] } := by
  simp [dashboardDimensionFilter, List.insertionSort, List.orderedInsert]
  decide

/-- The non-grouped `cores_count` filter of the worked example is
single-valued with the declared default, matching the repository's
`test_dashboard_lookml` expectation (`default_value: '4'`). -/
theorem dashboard_filter_cores_count_example :
    dashboardDimensionFilter (some "os") "cores_count"
      { default := "4", options := ["4", "1"] } =
      { name := "cores_count", type := "string_filter", default_value := "4",
        allow_multiple_values := false, required := true, ui_type := "dropdown_menu",
        ui_display := "inline", options := ["4", "1"] } := by
  simp [dashboardDimensionFilter]

/-- C1: for every dashboard table spec, each declared dimension gets one
dashboard-level filter; a dimension other than the grouping dimension
(in particular every dimension when `group_by_dimension` is unset) gets
a single-valued filter whose default is its single declared default;
the grouping dimension instead gets a multi-valued, required,
advanced-UI filter whose default is all declared options sorted and
joined by `","`. -/
theorem dashboard_filter_group_by_dimension
    (t : DashboardTableSpec) (dimension_name : String) (decl : DimDecl)
    (hmem : (dimension_name, decl) ∈ t.dimensions) :
    ∃ f ∈ dashboardDimensionFilters t,
      f = dashboardDimensionFilter t.group_by_dimension dimension_name decl ∧
      (t.group_by_dimension ≠ some dimension_name →
        f.allow_multiple_values = false ∧ f.default_value = decl.default ∧
        f.required = true ∧ f.ui_type = "dropdown_menu" ∧ f.options = decl.options) ∧
      (t.group_by_dimension = some dimension_name →
        f.allow_multiple_values = true ∧ f.required = true ∧ f.ui_type = "advanced" ∧
        f.default_value =
          String.intercalate "," (List.insertionSort (· ≤ ·) decl.options) ∧
        f.options = List.insertionSort (· ≤ ·) decl.options) := by
  refine ⟨dashboardDimensionFilter t.group_by_dimension dimension_name decl,
    List.mem_map.2 ⟨(dimension_name, decl), hmem, rfl⟩, rfl, ?_, ?_⟩
  · intro hne
    simp [dashboardDimensionFilter, hne]
  · intro heq
    simp [dashboardDimensionFilter, heq]

/-- Witness for C1: in the worked example (`group_by_dimension: os`),
the `os` filter is multi-valued with sorted comma-joined default. -/
theorem dashboard_filter_group_by_dimension_witness :
    ("os", ({ default := "Windows", options := ["Windows", "Linux"] } : DimDecl)) ∈
      sampleDashboardTable.dimensions ∧
    (∃ f ∈ dashboardDimensionFilters sampleDashboardTable,
      f = dashboardDimensionFilter sampleDashboardTable.group_by_dimension "os"
        { default := "Windows", options := ["Windows", "Linux"] } ∧
      (sampleDashboardTable.group_by_dimension ≠ some "os" →
        f.allow_multiple_values = false ∧
        f.default_value = ({ default := "Windows", options := ["Windows", "Linux"] } : DimDecl).default ∧
        f.required = true ∧ f.ui_type = "dropdown_menu" ∧
        f.options = ({ default := "Windows", options := ["Windows", "Linux"] } : DimDecl).options) ∧
      (sampleDashboardTable.group_by_dimension = some "os" →
        f.allow_multiple_values = true ∧ f.required = true ∧ f.ui_type = "advanced" ∧
        f.default_value =
          String.intercalate "," (List.insertionSort (· ≤ ·) (["Windows", "Linux"] : List String)) ∧
        f.options = List.insertionSort (· ≤ ·) (["Windows", "Linux"] : List String))) :=
  ⟨by decide,
   dashboard_filter_group_by_dimension sampleDashboardTable "os"
     { default := "Windows", options := ["Windows", "Linux"] } (by decide)⟩

/-- C9: for a view spec with a registered `type` discriminator,
`from_dict` followed by `to_lookml` (through the registry, against any
fixed rendering including one backed by a fixed successful
schema-introspector stub) is deterministic: two runs on identical input
specs succeed at the registry level and produce the identical rendered
output. -/
theorem render_view_deterministic {α : Type}
    (VIEW_TYPES : List (String × (String → String → ViewDict → α)))
    (render : α → Except PyErr LookmlViews)
    (ns name : String) (spec1 spec2 : ViewDict)
    (hreg : spec1.type ∈ VIEW_TYPES.map Prod.fst)
    (hid : spec1 = spec2) :
    ∃ r, buildAndRender VIEW_TYPES render ns name spec1 = .ok r ∧
      buildAndRender VIEW_TYPES render ns name spec2 = .ok r := by
  subst hid
  rcases List.mem_map.1 hreg with ⟨p, hp, hpt⟩
  have hlook : ∃ c, dictLookup VIEW_TYPES spec1.type = .ok c := by
    unfold dictLookup
    cases hfind : VIEW_TYPES.find? (fun q => q.1 == spec1.type) with
    | none =>
        exfalso
        have := List.find?_eq_none.1 hfind p hp
        simp [hpt] at this
    | some q => exact ⟨q.2, rfl⟩
  rcases hlook with ⟨c, hc⟩
  refine ⟨render (c ns name spec1), ?_, ?_⟩ <;> simp [buildAndRender, hc, Except.map]

/-- Witness for C9: two runs of the registered histogram view on the
same concrete spec, under the fixed successful introspector stub, give
the same rendered output. -/
theorem render_view_deterministic_witness :
    (OperationalMonitoringHistogramView.view_type : String) ∈
      sampleViewRegistry.map Prod.fst ∧
    ({ type := OperationalMonitoringHistogramView.view_type, tables := [sampleTable] } : ViewDict) =
      { type := OperationalMonitoringHistogramView.view_type, tables := [sampleTable] } ∧
    (∃ r, buildAndRender sampleViewRegistry (renderWithStub fun _ => sampleSchema)
        "operational_monitoring" "fission"
        { type := OperationalMonitoringHistogramView.view_type, tables := [sampleTable] } = .ok r ∧
      buildAndRender sampleViewRegistry (renderWithStub fun _ => sampleSchema)
        "operational_monitoring" "fission"
        { type := OperationalMonitoringHistogramView.view_type, tables := [sampleTable] } = .ok r) :=
  ⟨by decide, rfl,
   render_view_deterministic sampleViewRegistry (renderWithStub fun _ => sampleSchema)
     "operational_monitoring" "fission" _ _ (by decide) rfl⟩
